import Mathlib

/-!
# Verification of `fpga_gpio_controller.py`

Shallow embedding of the pin-state coordinator / command router of
`src/fpga_gpio_controller.py` and proofs of the spec claims about it.

The driver adapter (the `sudo pinctrl ...` subprocess world) is modelled as a
function from the full command string to an optional `(returncode, stdout)`
pair; `none` represents the subprocess machinery itself raising an exception
(the `except` branch of `run_pinctrl`).  Every operation additionally returns
the list of pinctrl command strings it issued, in order, so that theorems can
speak about which physical-line operations were attempted.
-/

namespace FpgaGpio

/-- Driver adapter model: maps a full shell command string (as built by
`run_pinctrl`, i.e. `"sudo pinctrl <command>"`) to `some (returncode, stdout)`,
or `none` when the subprocess call itself raises an exception. -/
abbrev Driver : Type := String → Option (Nat × String)

/-- The in-memory Line State (`current_state` in the source): logical on/off
per `(fpga_id, user_type)`.  The Python global is a nested dict holding
exactly the registered keys, all initialised to `False`; we model it as a
total boolean function (lookups only ever happen at registered keys). -/
abbrev PinState : Type := String → String → Bool

/-- `GPIO_PINS` — the static line registry, transcribed from lines 21–40 of
the source, in the source's (insertion) iteration order. -/
def GPIO_PINS : List (String × List (String × Nat)) :=
  [("fpga1", [("dan", 18), ("nate", 19), ("ben", 20), ("loaded", 21)]),
   ("fpga2", [("dan", 22), ("nate", 23), ("ben", 24), ("loaded", 25)]),
   ("fpga3", [("dan", 26), ("nate", 27), ("ben", 13), ("loaded", 6)])]

/-- `current_state`'s initial value (lines 42–46): every registered line
starts `False`. -/
def initial_state : PinState := fun _ _ => false

/-- Python dict assignment `current_state[fpga_id][user_type] = value`. -/
def updateState (s : PinState) (g l : String) (v : Bool) : PinState :=
  fun g2 l2 => if g2 == g && l2 == l then v else s g2 l2

/-- The combined membership test / lookup
`fpga_id in GPIO_PINS and user_type in GPIO_PINS[fpga_id]` followed by
`GPIO_PINS[fpga_id][user_type]` (lines 134 and 146): `some pin` exactly when
the pair is registered. -/
def lookupPin (g l : String) : Option Nat :=
  match GPIO_PINS.find? (fun e => e.1 == g) with
  | some e =>
    match e.2.find? (fun q => q.1 == l) with
    | some q => some q.2
    | none => none
  | none => none

/-- Python `str.split(sep)` for a one-character separator, by structural
recursion over the character list (`acc` holds the current token reversed).
Like Python, it yields empty tokens between adjacent separators and at the
ends, and `[""]` on the empty string. -/
def pySplitAux (sep : Char) : List Char → List Char → List String
  | [], acc => [String.mk acc.reverse]
  | c :: cs, acc =>
    if c = sep then String.mk acc.reverse :: pySplitAux sep cs []
    else pySplitAux sep cs (c :: acc)

/-- Python `s.split(sep)` with a one-character separator. -/
def pySplit (sep : Char) (s : String) : List String := pySplitAux sep s.data []

/-- The separator used by `topic.split('/')` (line 129). -/
def sepSlash : Char := '/'

/-- Python `str.strip()`: remove leading and trailing whitespace. -/
def pyStrip (s : String) : String :=
  String.mk (((s.data.dropWhile Char.isWhitespace).reverse.dropWhile
    Char.isWhitespace).reverse)

/-- Python `str.lower()` (ASCII case folding, which covers every string the
controller compares against). -/
def pyLower (s : String) : String := String.mk (s.data.map Char.toLower)

/-- The shell command string `f"sudo pinctrl {command}"` built by
`run_pinctrl` (line 59). -/
def pinctrlCmd (command : String) : String := "sudo pinctrl " ++ command

/-- The full command issued by `set_pin_output`: `sudo pinctrl set <p> op`. -/
def opCmd (p : Nat) : String := pinctrlCmd ("set " ++ toString p ++ " op")

/-- The full command issued by `set_pin_high`: `sudo pinctrl set <p> dh`
(drive High — electrical 3.3V, logical OFF). -/
def dhCmd (p : Nat) : String := pinctrlCmd ("set " ++ toString p ++ " dh")

/-- The full command issued by `set_pin_low`: `sudo pinctrl set <p> dl`
(drive Low — electrical 0V, logical ON). -/
def dlCmd (p : Nat) : String := pinctrlCmd ("set " ++ toString p ++ " dl")

/-- `run_pinctrl` (lines 56–64): builds `"sudo pinctrl " + command`, runs it,
returns `(returncode == 0, stdout.strip())`; any exception from the subprocess
call is caught and mapped to `(False, "")`.  The second component of the
result is the trace: the one command string that was issued. -/
def run_pinctrl (d : Driver) (command : String) : (Bool × String) × List String :=
  match d (pinctrlCmd command) with
  | some r => ((r.1 == 0, pyStrip r.2), [pinctrlCmd command])
  | none => ((false, ""), [pinctrlCmd command])

/-- `set_pin_output` (lines 66–69): `run_pinctrl f"set {pin} op"`, returning
only the success flag (plus the trace). -/
def set_pin_output (d : Driver) (pin : Nat) : Bool × List String :=
  let r := run_pinctrl d ("set " ++ toString pin ++ " op")
  (r.1.1, r.2)

/-- `set_pin_high` (lines 71–76): `run_pinctrl f"set {pin} dh"` — drive the
line electrically High (3.3V), which turns the LED OFF for the UDN2981A. -/
def set_pin_high (d : Driver) (pin : Nat) : Bool × List String :=
  let r := run_pinctrl d ("set " ++ toString pin ++ " dh")
  (r.1.1, r.2)

/-- `set_pin_low` (lines 78–83): `run_pinctrl f"set {pin} dl"` — drive the
line electrically Low (0V), which turns the LED ON for the UDN2981A. -/
def set_pin_low (d : Driver) (pin : Nat) : Bool × List String :=
  let r := run_pinctrl d ("set " ++ toString pin ++ " dl")
  (r.1.1, r.2)

/-- Inner loop of `setup_gpio` (lines 89–94) over one group's pins: configure
each pin as output then drive it High; the first failure raises (modelled as
`Except.error` carrying the exception message) and stops the iteration. -/
def setupPins (d : Driver) : List (String × Nat) → Except String Unit × List String
  | [] => (Except.ok (), [])
  | (_, pin) :: rest =>
    let r1 := set_pin_output d pin
    if !r1.1 then
      (Except.error ("Failed to set GPIO " ++ toString pin ++ " as output"), r1.2)
    else
      let r2 := set_pin_high d pin
      if !r2.1 then
        (Except.error ("Failed to set GPIO " ++ toString pin ++ " high"), r1.2 ++ r2.2)
      else
        let r3 := setupPins d rest
        (r3.1, r1.2 ++ r2.2 ++ r3.2)

/-- Outer loop of `setup_gpio` (line 88) over the registry's groups. -/
def setupGroups (d : Driver) : List (String × List (String × Nat)) → Except String Unit × List String
  | [] => (Except.ok (), [])
  | (_, pins) :: rest =>
    match setupPins d pins with
    | (Except.error e, tr) => (Except.error e, tr)
    | (Except.ok _, tr) =>
      let r := setupGroups d rest
      (r.1, tr ++ r.2)

/-- `setup_gpio` (lines 85–95): iterate the whole registry; `Except.error`
models the `raise Exception(...)` escaping the method. -/
def setup_gpio (d : Driver) : Except String Unit × List String :=
  setupGroups d GPIO_PINS

/-- `IndividualPinController.__init__` (lines 49–54) as far as the driver is
concerned: it calls `setup_gpio` first; the signal handlers (which are what
would eventually invoke `cleanup_and_exit`) are only installed *after*
`setup_gpio` returns, and no `try`/`except` surrounds the construction in
`__main__`, so an exception raised by `setup_gpio` propagates uncaught —
the model returns the error together with only the driver commands issued up
to the failing call, and nothing else runs.  (A Python process dying on an
uncaught exception terminates with a non-zero exit status.) -/
def controller_new (d : Driver) : Except String Unit × List String :=
  setup_gpio d

/-- `handle_pin_command` (lines 144–158): look the pin up, parse
`value_str.lower() == 'true'`, update `current_state` *before* any driver
call, then issue `set_pin_low` (LED ON) or `set_pin_high` (LED OFF), ignoring
the driver's success flag.  `none` corresponds to the `KeyError` Python would
raise on an unregistered pair — unreachable from `on_message`, whose guard
(line 134) performs exactly the same lookup. -/
def handle_pin_command (d : Driver) (s : PinState) (fpga_id user_type value_str : String)
    : Option (PinState × List String) :=
  match lookupPin fpga_id user_type with
  | none => none
  | some pin =>
    let value := pyLower value_str == "true"
    let s1 := updateState s fpga_id user_type value
    if value then some (s1, (set_pin_low d pin).2)
    else some (s1, (set_pin_high d pin).2)

/-- Observable outcome of one `on_message` delivery: the resulting Line
State, the driver commands issued, and the `(topic, payload)` pairs
published. -/
structure MsgResult where
  state : PinState
  calls : List String
  published : List (String × String)

/-- `on_message` (lines 121–142): decode and `strip()` the payload, split the
topic on `/`, require exactly four segments with the literal markers `fpga`
and `command`, require the `(fpga_id, user_type)` pair to be registered, then
run `handle_pin_command` and publish the (stripped) payload on
`fpga/status/<fpga_id>/<user_type>`.  Any non-matching topic falls through
with no call, no state change and no publish. -/
def on_message (d : Driver) (s : PinState) (topic payloadBytes : String) : MsgResult :=
  let payload := pyStrip payloadBytes
  match pySplit sepSlash topic with
  | [ns, marker, fpga_id, user_type] =>
    if ns == "fpga" && marker == "command" then
      match handle_pin_command d s fpga_id user_type payload with
      | some (s1, tr) =>
        { state := s1, calls := tr,
          published := [("fpga/status/" ++ fpga_id ++ "/" ++ user_type, payload)] }
      | none => { state := s, calls := [], published := [] }
    else { state := s, calls := [], published := [] }
  | _ => { state := s, calls := [], published := [] }

/-- Inner loop of `cleanup_and_exit` (lines 177–179) over one group: drive
every pin High, ignoring failures. -/
def sweepPins (d : Driver) : List (String × Nat) → List String
  | [] => []
  | (_, pin) :: rest => (set_pin_high d pin).2 ++ sweepPins d rest

/-- Outer loop of `cleanup_and_exit` over the registry's groups. -/
def sweepGroups (d : Driver) : List (String × List (String × Nat)) → List String
  | [] => []
  | (_, pins) :: rest => sweepPins d pins ++ sweepGroups d rest

/-- `cleanup_and_exit` (lines 174–183): drive every registered pin High
(best effort, return values ignored), disconnect, `sys.exit(0)`.  The Python
function never reads or writes `current_state`, so the model passes the Line
State through unchanged; the final `Nat` is the `sys.exit` status code,
unconditionally `0`. -/
def cleanup_and_exit (d : Driver) (s : PinState) : PinState × List String × Nat :=
  (s, sweepGroups d GPIO_PINS, 0)

/-- A driver on which every pinctrl call succeeds (returncode 0). -/
def goodDriver : Driver := fun _ => some (0, "")

/-- A driver on which every pinctrl call fails (returncode 1). -/
def badDriver : Driver := fun _ => some (1, "")

/-- A driver on which every pinctrl subprocess call raises an exception. -/
def noneDriver : Driver := fun _ => none

/-- A driver that fails exactly the `setLevel(18, Low)` call and succeeds on
everything else. -/
def failDL18 : Driver := fun c =>
  if c == "sudo pinctrl set 18 dl" then some (1, "") else some (0, "")

/-- A Line State in which `(fpga1, dan)` is recorded ON. -/
def stateDanOn : PinState := updateState initial_state "fpga1" "dan" true

example : lookupPin "fpga1" "dan" = some 18 := by decide
example : lookupPin "fpga9" "dan" = none := by decide
example : (setup_gpio goodDriver).1 = Except.ok () := rfl
example : (setup_gpio badDriver).1 =
    Except.error "Failed to set GPIO 18 as output" := rfl
example : (run_pinctrl noneDriver "set 18 op").1 = (false, "") := by decide

/-! ## Helper lemmas -/

theorem run_pinctrl_calls (d : Driver) (c : String) :
    (run_pinctrl d c).2 = [pinctrlCmd c] := by
  unfold run_pinctrl
  cases d (pinctrlCmd c) <;> rfl

theorem set_pin_output_calls (d : Driver) (p : Nat) :
    (set_pin_output d p).2 = [opCmd p] := by
  simp only [set_pin_output]
  rw [run_pinctrl_calls]
  rfl

theorem set_pin_high_calls (d : Driver) (p : Nat) :
    (set_pin_high d p).2 = [dhCmd p] := by
  simp only [set_pin_high]
  rw [run_pinctrl_calls]
  rfl

theorem set_pin_low_calls (d : Driver) (p : Nat) :
    (set_pin_low d p).2 = [dlCmd p] := by
  simp only [set_pin_low]
  rw [run_pinctrl_calls]
  rfl

theorem updateState_self (s : PinState) (g l : String) (v : Bool) :
    updateState s g l v g l = v := by
  simp [updateState]

theorem updateState_idem (s : PinState) (g l : String) (v : Bool) (g2 l2 : String) :
    updateState (updateState s g l v) g l v g2 l2 = updateState s g l v g2 l2 := by
  unfold updateState
  by_cases h : (g2 == g && l2 == l) = true <;> simp [h]

/-- Unfolding `handle_pin_command` on a registered pair: the Line State is set
to the parsed intent before (and regardless of the outcome of) the single
driver level-set call. -/
theorem handle_pin_command_eq (d : Driver) (s : PinState) (g l v : String) (p : Nat)
    (hp : lookupPin g l = some p) :
    handle_pin_command d s g l v =
      some (updateState s g l (pyLower v == "true"),
            [if pyLower v == "true" then dlCmd p else dhCmd p]) := by
  unfold handle_pin_command
  rw [hp]
  cases hv : pyLower v == "true" <;>
    simp [hv, set_pin_low_calls, set_pin_high_calls]

/-- A successful registry lookup means the pair is a registry entry. -/
theorem lookupPin_mem {g l : String} {p : Nat} (h : lookupPin g l = some p) :
    ∃ pins, (g, pins) ∈ GPIO_PINS ∧ (l, p) ∈ pins := by
  unfold lookupPin at h
  cases hf : GPIO_PINS.find? (fun e => e.1 == g) with
  | none => rw [hf] at h; exact absurd h (by simp)
  | some e =>
    rw [hf] at h
    dsimp only at h
    cases hq : e.2.find? (fun q => q.1 == l) with
    | none => rw [hq] at h; exact absurd h (by simp)
    | some q =>
      rw [hq] at h
      have he := List.find?_some hf
      have hqe := List.find?_some hq
      have hme : e ∈ GPIO_PINS := List.mem_of_find?_eq_some hf
      have hmq : q ∈ e.2 := List.mem_of_find?_eq_some hq
      refine ⟨e.2, ?_, ?_⟩
      · have heg : e = (g, e.2) := by
          rw [← beq_iff_eq.mp he]
        rwa [← heg]
      · have hqp : q = (l, p) := by
          have h2 : q.2 = p := by simpa using h
          rw [← beq_iff_eq.mp hqe, ← h2]
        rwa [← hqp]

/-- Inner setup loop postcondition: if the loop over one group's pins came
back without raising, every pin in the group had a successful
`set_pin_output` and a successful `set_pin_high`, and both commands are in
the trace. -/
theorem setupPins_ok {d : Driver} {ps : List (String × Nat)} {u : Unit} {tr : List String}
    (h : setupPins d ps = (Except.ok u, tr)) :
    ∀ l p, (l, p) ∈ ps →
      (set_pin_output d p).1 = true ∧ (set_pin_high d p).1 = true ∧
      opCmd p ∈ tr ∧ dhCmd p ∈ tr := by
  induction ps generalizing tr with
  | nil => intro l p hm; simp at hm
  | cons e rest ih =>
    obtain ⟨name, pin⟩ := e
    intro l p hm
    simp only [setupPins] at h
    by_cases h1 : (set_pin_output d pin).1 = true
    · simp only [h1, Bool.not_true, Bool.false_eq_true, if_false] at h
      by_cases h2 : (set_pin_high d pin).1 = true
      · simp only [h2, Bool.not_true, Bool.false_eq_true, if_false] at h
        rw [set_pin_output_calls, set_pin_high_calls, Prod.mk.injEq] at h
        obtain ⟨hr, htr⟩ := h
        subst htr
        rcases List.mem_cons.mp hm with heq | hmem
        · injection heq with hl hpin
          subst hpin
          exact ⟨h1, h2, by simp, by simp⟩
        · have hrest : setupPins d rest = (Except.ok u, (setupPins d rest).2) := by
            rw [← hr]
          have f := ih hrest l p hmem
          exact ⟨f.1, f.2.1, by simp [f.2.2.1], by simp [f.2.2.2]⟩
      · simp only [Bool.not_eq_true] at h2
        simp [h2] at h
    · simp only [Bool.not_eq_true] at h1
      simp [h1] at h

/-- Outer setup loop postcondition, lifted over the whole registry. -/
theorem setupGroups_ok {d : Driver} {L : List (String × List (String × Nat))}
    {u : Unit} {tr : List String}
    (h : setupGroups d L = (Except.ok u, tr)) :
    ∀ g pins, (g, pins) ∈ L → ∀ l p, (l, p) ∈ pins →
      (set_pin_output d p).1 = true ∧ (set_pin_high d p).1 = true ∧
      opCmd p ∈ tr ∧ dhCmd p ∈ tr := by
  induction L generalizing tr with
  | nil => intro g pins hm; simp at hm
  | cons e rest ih =>
    obtain ⟨gname, pins0⟩ := e
    intro g pins hm l p hp
    simp only [setupGroups] at h
    cases hsp : setupPins d pins0 with
    | mk r1 tr1 =>
      rw [hsp] at h
      cases r1 with
      | error msg => simp at h
      | ok v =>
        dsimp only at h
        rw [Prod.mk.injEq] at h
        obtain ⟨hr, htr⟩ := h
        subst htr
        rcases List.mem_cons.mp hm with heq | hmem
        · injection heq with hg hpins
          subst hpins
          have f := setupPins_ok hsp l p hp
          exact ⟨f.1, f.2.1, by simp [f.2.2.1], by simp [f.2.2.2]⟩
        · have hrest : setupGroups d rest = (Except.ok u, (setupGroups d rest).2) := by
            rw [← hr]
          have f := ih hrest g pins hmem l p hp
          exact ⟨f.1, f.2.1, by simp [f.2.2.1], by simp [f.2.2.2]⟩

/-- Every pin of a group is attempted (its `dh` command traced) by the
cleanup sweep's inner loop, regardless of any call's success. -/
theorem sweepPins_mem {d : Driver} {ps : List (String × Nat)} {l : String} {p : Nat}
    (hm : (l, p) ∈ ps) : dhCmd p ∈ sweepPins d ps := by
  induction ps with
  | nil => simp at hm
  | cons e rest ih =>
    obtain ⟨name, pin⟩ := e
    simp only [sweepPins]
    rcases List.mem_cons.mp hm with heq | hmem
    · injection heq with hl hpin
      subst hpin
      simp [set_pin_high_calls]
    · simp [ih hmem]

/-- Every registered pin is attempted by the cleanup sweep. -/
theorem sweepGroups_mem {d : Driver} {L : List (String × List (String × Nat))}
    {g : String} {pins : List (String × Nat)} {l : String} {p : Nat}
    (hg : (g, pins) ∈ L) (hp : (l, p) ∈ pins) : dhCmd p ∈ sweepGroups d L := by
  induction L with
  | nil => simp at hg
  | cons e rest ih =>
    obtain ⟨gname, pins0⟩ := e
    simp only [sweepGroups]
    rcases List.mem_cons.mp hg with heq | hmem
    · injection heq with h1 h2
      subst h2
      simp [sweepPins_mem hp]
    · simp [ih hmem]

/-! ## Claim theorems -/

/-- C1 counterexample: with a driver that deterministically fails exactly the
`setLevel(18, Low)` call, handling the command `true` for the registered pair
`(fpga1, dan)` still flips the recorded Line State of that line from `false`
to `true`: the state is written *before* the driver call and the failed
result is ignored, so the claim's "Line State unchanged" (and its `Failed`
return — the handler returns nothing at all) is false of the code. -/
theorem C1_state_changes_on_failed_setLevel :
    (set_pin_low failDL18 18).1 = false ∧
    initial_state "fpga1" "dan" = false ∧
    handle_pin_command failDL18 initial_state "fpga1" "dan" "true" =
      some (updateState initial_state "fpga1" "dan" true, [dlCmd 18]) ∧
    updateState initial_state "fpga1" "dan" true "fpga1" "dan" = true :=
  ⟨by decide, rfl, rfl, by decide⟩

/-- C1 (amended): when the driver-level level-set call fails, `apply` gives
no failure indication and does *not* leave the recorded Line State unchanged:
`handle_pin_command` writes the parsed intent into the state before the
driver call and ignores the call's result, so after a failed call the state
holds the desired (unconfirmed) value. -/
theorem C1_amended_state_follows_intent (d : Driver) (s : PinState)
    (g l v : String) (p : Nat) (hp : lookupPin g l = some p)
    (_hfail : (if pyLower v == "true" then set_pin_low d p else set_pin_high d p).1 = false) :
    handle_pin_command d s g l v =
      some (updateState s g l (pyLower v == "true"),
            [if pyLower v == "true" then dlCmd p else dhCmd p]) :=
  handle_pin_command_eq d s g l v p hp

theorem C1_amended_witness :
    handle_pin_command failDL18 initial_state "fpga1" "dan" "true" =
      some (updateState initial_state "fpga1" "dan" (pyLower "true" == "true"),
            [if pyLower "true" == "true" then dlCmd 18 else dhCmd 18]) :=
  C1_amended_state_follows_intent failDL18 initial_state "fpga1" "dan" "true" 18
    (by decide) (by decide)

/-- C2: for every registered pair `(g, l)` bound to pin `p` and every boolean
`x`, applying desired state `x` issues exactly one driver call — the
electrical-Low command `sudo pinctrl set p dl` when `x = true` and the
electrical-High command `sudo pinctrl set p dh` when `x = false`, never the
inverse.  The singleton trace shows the polarity inversion is applied exactly
once, in `handle_pin_command` at the coordinator/driver boundary (the only
place level-set commands are chosen). -/
theorem C2_polarity_inversion (d : Driver) (s : PinState) (g l : String) (p : Nat)
    (hp : lookupPin g l = some p) (x : Bool) :
    handle_pin_command d s g l (if x then "true" else "false") =
      some (updateState s g l x, [if x then dlCmd p else dhCmd p]) := by
  cases x with
  | false =>
    have h := handle_pin_command_eq d s g l "false" p hp
    rw [(by decide : (pyLower "false" == "true") = false)] at h
    simpa using h
  | true =>
    have h := handle_pin_command_eq d s g l "true" p hp
    rw [(by decide : (pyLower "true" == "true") = true)] at h
    simpa using h

theorem C2_witness :
    handle_pin_command goodDriver initial_state "fpga2" "nate" "true" =
      some (updateState initial_state "fpga2" "nate" true, [dlCmd 23]) := by
  have h := C2_polarity_inversion goodDriver initial_state "fpga2" "nate" 23 (by decide) true
  simpa using h

/-- C3 counterexample: with a driver on which every call fails, the very
first startup configure call (`set 18 op`) fails and the exception propagates
uncaught out of `__init__` (the signal handlers that would run
`cleanup_and_exit` are installed only *after* `setup_gpio`, and `__main__`
has no handler).  The complete driver interaction of the process is the one
failed configure command: the best-effort allOff sweep — which would have
issued `set 19 dh` among its twelve drive-High commands — never runs, and no
disconnect happens.  The claim that the sweep and disconnect run on a fatal
startup failure is therefore false of the code. -/
theorem C3_no_cleanup_on_startup_failure :
    (controller_new badDriver).1 = Except.error "Failed to set GPIO 18 as output" ∧
    (controller_new badDriver).2 = [opCmd 18] ∧
    dhCmd 19 ∉ (controller_new badDriver).2 :=
  ⟨rfl, by decide, by decide⟩

/-- C3 (amended): on an internally raised fatal startup failure the exception
propagates uncaught: the process terminates with a non-zero-equivalent
indication (a Python process dying on an uncaught exception exits non-zero),
but no allOff sweep and no bus disconnect run — with the first configure call
failing, the process's entire driver interaction is that single failed
command. -/
theorem C3_amended_uncaught_propagation (d : Driver)
    (h : d (opCmd 18) = some (1, "")) :
    controller_new d = (Except.error "Failed to set GPIO 18 as output", [opCmd 18]) := by
  have h18 : (set_pin_output d 18).1 = false := by
    simp only [set_pin_output, run_pinctrl, opCmd, pinctrlCmd] at h ⊢
    rw [h]
    rfl
  have htr := set_pin_output_calls d 18
  simp only [controller_new, setup_gpio, GPIO_PINS, setupGroups, setupPins, h18,
    Bool.not_false, if_true, htr]
  rfl

theorem C3_amended_witness :
    controller_new badDriver =
      (Except.error "Failed to set GPIO 18 as output", [opCmd 18]) :=
  C3_amended_uncaught_propagation badDriver (by decide)

/-- C4 counterexample: start from a state where `(fpga1, dan)` is recorded
ON and a driver on which every call succeeds.  The cleanup sweep's
`set_pin_high(18)` succeeds, yet the in-memory Line State of `(fpga1, dan)`
after `cleanup_and_exit` is still `true` — the function never touches
`current_state` — falsifying "after allOff every line whose adapter call
succeeded has in-memory Line State false" (it also exits 0 instead of
reporting any aggregate). -/
theorem C4_state_not_cleared_by_sweep :
    (set_pin_high goodDriver 18).1 = true ∧
    stateDanOn "fpga1" "dan" = true ∧
    (cleanup_and_exit goodDriver stateDanOn).1 "fpga1" "dan" = true :=
  ⟨by decide, by decide, by decide⟩

/-- C4 (amended): `cleanup_and_exit` attempts `setLevel(pin, High)` for every
registry entry with no early exit — the `dh` command of every registered pin
is in the sweep trace for *every* driver, including ones on which calls fail
— but it never updates the in-memory Line State (every line keeps its prior
recorded state, even lines whose call succeeded), aggregates nothing, and
always exits with success code `0`. -/
theorem C4_amended_sweep_best_effort (d : Driver) (s : PinState)
    (g l : String) (p : Nat) (hp : lookupPin g l = some p) :
    dhCmd p ∈ (cleanup_and_exit d s).2.1 ∧
    (∀ g2 l2, (cleanup_and_exit d s).1 g2 l2 = s g2 l2) ∧
    (cleanup_and_exit d s).2.2 = 0 := by
  obtain ⟨pins, hg, hpm⟩ := lookupPin_mem hp
  exact ⟨sweepGroups_mem hg hpm, fun g2 l2 => rfl, rfl⟩

theorem C4_amended_witness :
    dhCmd 13 ∈ (cleanup_and_exit badDriver stateDanOn).2.1 ∧
    (cleanup_and_exit badDriver stateDanOn).1 "fpga1" "dan" = stateDanOn "fpga1" "dan" ∧
    (cleanup_and_exit badDriver stateDanOn).2.2 = 0 := by
  have h := C4_amended_sweep_best_effort badDriver stateDanOn "fpga3" "ben" 13 (by decide)
  exact ⟨h.1, h.2.1 "fpga1" "dan", h.2.2⟩

/-- C5: a well-formed four-segment command topic whose `(groupId, lineName)`
pair is not in the registry is dropped by `on_message`'s membership guard:
the Line State is returned unchanged (the `NotFound` outcome), no driver
command is issued, and nothing is published. -/
theorem C5_unknown_line_safety (d : Driver) (s : PinState) (topic payload g l : String)
    (ht : pySplit sepSlash topic = ["fpga", "command", g, l])
    (hg : lookupPin g l = none) :
    (on_message d s topic payload).state = s ∧
    (on_message d s topic payload).calls = [] ∧
    (on_message d s topic payload).published = [] := by
  unfold on_message handle_pin_command
  rw [ht]
  simp [hg]

theorem C5_witness :
    (on_message goodDriver initial_state "fpga/command/fpga9/dan" "true").state =
      initial_state ∧
    (on_message goodDriver initial_state "fpga/command/fpga9/dan" "true").calls = [] ∧
    (on_message goodDriver initial_state "fpga/command/fpga9/dan" "true").published = [] :=
  C5_unknown_line_safety goodDriver initial_state "fpga/command/fpga9/dan" "true"
    "fpga9" "dan" (by decide) (by decide)

/-- C6 counterexample: the router does *not* re-publish the received payload
byte-for-byte.  Receiving `" true "` (surrounding whitespace) on the
registered topic `fpga/command/fpga1/dan` publishes the stripped string
`"true"` on the status topic, which differs from the received payload — the
decode step runs `.strip()` before the payload is echoed. -/
theorem C6_payload_not_verbatim :
    (on_message goodDriver initial_state "fpga/command/fpga1/dan" " true ").published =
      [("fpga/status/fpga1/dan", "true")] ∧
    " true " ≠ "true" :=
  ⟨rfl, by decide⟩

/-- C6 (amended): for every well-formed command on a registered pair the
router re-publishes the received payload *with surrounding whitespace
stripped* — byte-for-byte identical to what was received exactly when the
payload has no surrounding whitespace — on the topic obtained from the
command topic by substituting the segment `command` with `status`; this
happens for every driver outcome (`ok` or `Failed`) alike. -/
theorem C6_amended_trimmed_echo (d : Driver) (s : PinState) (topic payload g l : String)
    (p : Nat) (ht : pySplit sepSlash topic = ["fpga", "command", g, l])
    (hp : lookupPin g l = some p) :
    (on_message d s topic payload).published =
      [("fpga/status/" ++ g ++ "/" ++ l, pyStrip payload)] := by
  unfold on_message
  rw [ht]
  simp [handle_pin_command_eq d s g l (pyStrip payload) p hp]

theorem C6_amended_witness :
    (on_message badDriver initial_state "fpga/command/fpga1/dan" " true ").published =
      [("fpga/status/" ++ "fpga1" ++ "/" ++ "dan", pyStrip " true ")] :=
  C6_amended_trimmed_echo badDriver initial_state "fpga/command/fpga1/dan" " true "
    "fpga1" "dan" 18 (by decide) (by decide)

/-- C7: the payload parse is total (the handler is a total function — no
payload is rejected) and the recorded intent for a registered pair is ON
exactly when the payload, after stripping surrounding whitespace and
lowercasing, equals the literal `"true"`; every other payload resolves to
OFF. -/
theorem C7_permissive_bool_parse (d : Driver) (s : PinState) (topic payload g l : String)
    (p : Nat) (ht : pySplit sepSlash topic = ["fpga", "command", g, l])
    (hp : lookupPin g l = some p) :
    (on_message d s topic payload).state g l = (pyLower (pyStrip payload) == "true") := by
  unfold on_message
  rw [ht]
  simp [handle_pin_command_eq d s g l (pyStrip payload) p hp, updateState_self]

theorem C7_witness :
    (on_message goodDriver initial_state "fpga/command/fpga1/dan" "1").state
      "fpga1" "dan" = false ∧
    (on_message goodDriver initial_state "fpga/command/fpga3/loaded" " TRUE ").state
      "fpga3" "loaded" = true := by
  refine ⟨?_, ?_⟩
  · have h := C7_permissive_bool_parse goodDriver initial_state
      "fpga/command/fpga1/dan" "1" "fpga1" "dan" 18 (by decide) (by decide)
    rw [h]
    decide
  · have h := C7_permissive_bool_parse goodDriver initial_state
      "fpga/command/fpga3/loaded" " TRUE " "fpga3" "loaded" 6 (by decide) (by decide)
    rw [h]
    decide

/-- C8: if `setup_gpio` returns without raising, then every registered line's
in-memory Line State is `false` (the `current_state` initializer, which
`setup_gpio` never touches), and every registered pin had a *successful*
configure-as-output call and a *successful* drive-High call, both present in
the command trace.  Conversely, since the result is `ok` only when every
configure call succeeded, any single line's configuration failure forces the
`Except.error` result — the uncaught `raise` — so the process never reaches
`setup_mqtt`/`run` and serves no commands. -/
theorem C8_setup_success_postcondition (d : Driver) (u : Unit) (tr : List String)
    (h : setup_gpio d = (Except.ok u, tr)) :
    ∀ g l p, lookupPin g l = some p →
      initial_state g l = false ∧
      (set_pin_output d p).1 = true ∧ (set_pin_high d p).1 = true ∧
      opCmd p ∈ tr ∧ dhCmd p ∈ tr := by
  intro g l p hp
  obtain ⟨pins, hgm, hpm⟩ := lookupPin_mem hp
  have f := setupGroups_ok h g pins hgm l p hpm
  exact ⟨rfl, f.1, f.2.1, f.2.2.1, f.2.2.2⟩

theorem C8_witness :
    initial_state "fpga3" "ben" = false ∧
    (set_pin_output goodDriver 13).1 = true ∧
    (set_pin_high goodDriver 13).1 = true ∧
    opCmd 13 ∈ (setup_gpio goodDriver).2 ∧
    dhCmd 13 ∈ (setup_gpio goodDriver).2 :=
  C8_setup_success_postcondition goodDriver () (setup_gpio goodDriver).2 rfl
    "fpga3" "ben" 13 (by decide)

/-- C9: applying the same command twice in a row to a registered pair is
idempotent on the Line State — the state after the second call agrees
pointwise with the state after the first — and each invocation issues exactly
one adapter call, the second one identical to the first (no accumulation of
side effects beyond re-setting the level). -/
theorem C9_apply_idempotent (d : Driver) (s : PinState) (g l v : String) (p : Nat)
    (hp : lookupPin g l = some p) :
    ∀ st1 tr1 st2 tr2,
      handle_pin_command d s g l v = some (st1, tr1) →
      handle_pin_command d st1 g l v = some (st2, tr2) →
      tr2 = tr1 ∧ tr1.length = 1 ∧ ∀ g2 l2, st2 g2 l2 = st1 g2 l2 := by
  intro st1 tr1 st2 tr2 h1 h2
  rw [handle_pin_command_eq d s g l v p hp, Option.some.injEq, Prod.mk.injEq] at h1
  obtain ⟨hst1, htr1⟩ := h1
  subst hst1
  subst htr1
  rw [handle_pin_command_eq d _ g l v p hp, Option.some.injEq, Prod.mk.injEq] at h2
  obtain ⟨hst2, htr2⟩ := h2
  subst hst2
  subst htr2
  exact ⟨rfl, rfl, fun g2 l2 => updateState_idem s g l _ g2 l2⟩

theorem C9_witness :
    [dlCmd 18].length = 1 ∧
    updateState (updateState initial_state "fpga1" "dan" true) "fpga1" "dan" true
        "fpga1" "dan" =
      updateState initial_state "fpga1" "dan" true "fpga1" "dan" := by
  have h := C9_apply_idempotent goodDriver initial_state "fpga1" "dan" "true" 18
      (by decide) (updateState initial_state "fpga1" "dan" true) [dlCmd 18]
      (updateState (updateState initial_state "fpga1" "dan" true) "fpga1" "dan" true)
      [dlCmd 18] rfl rfl
  exact ⟨h.2.1, h.2.2 "fpga1" "dan"⟩

/-- C10: `run_pinctrl` is total — it returns a `(success, output)` pair for
every command and every driver behaviour, and a subprocess-level exception
(the `none` driver outcome) is caught and mapped to the result `(False, "")`;
consequently `set_pin_output`, `set_pin_high` and `set_pin_low` always return
a plain boolean (`false` in the exception case), never propagating the
exception. -/
theorem C10_run_pinctrl_total (d : Driver) (c : String)
    (h : d (pinctrlCmd c) = none) :
    run_pinctrl d c = ((false, ""), [pinctrlCmd c]) ∧
    (∀ p, d (opCmd p) = none → set_pin_output d p = (false, [opCmd p])) ∧
    (∀ p, d (dhCmd p) = none → set_pin_high d p = (false, [dhCmd p])) ∧
    (∀ p, d (dlCmd p) = none → set_pin_low d p = (false, [dlCmd p])) := by
  refine ⟨?_, ?_, ?_, ?_⟩
  · unfold run_pinctrl
    rw [h]
  · intro p hp
    simp only [opCmd] at hp
    unfold set_pin_output run_pinctrl
    rw [hp]
    rfl
  · intro p hp
    simp only [dhCmd] at hp
    unfold set_pin_high run_pinctrl
    rw [hp]
    rfl
  · intro p hp
    simp only [dlCmd] at hp
    unfold set_pin_low run_pinctrl
    rw [hp]
    rfl

theorem C10_witness :
    run_pinctrl noneDriver "set 18 op" = ((false, ""), [pinctrlCmd "set 18 op"]) ∧
    set_pin_output noneDriver 18 = (false, [opCmd 18]) ∧
    set_pin_high noneDriver 18 = (false, [dhCmd 18]) ∧
    set_pin_low noneDriver 18 = (false, [dlCmd 18]) := by
  have h := C10_run_pinctrl_total noneDriver "set 18 op" rfl
  exact ⟨h.1, h.2.1 18 rfl, h.2.2.1 18 rfl, h.2.2.2 18 rfl⟩

end FpgaGpio
